import Mathlib

/-!
Verification development for the `light-ethereum` header-verification core
(`src/ethash_wrapper.rs`, `src/error.rs`).

Shallow embedding conventions:
* `U256` values are `Nat`; the parity `uint` crate panics on add/sub/mul
  overflow and on division by zero, so every fallible arithmetic site is
  guarded and a panic is modelled as `none` (functions return `Option`).
* `u64` values are `Nat` with overflow/underflow of primitive arithmetic
  (debug semantics: a panic) modelled as `none` as well.
* `U256 << k` in the `uint` crate discards the bits shifted past 256, so it
  is modelled as `2 ^ k % 2 ^ 256`.
* `H256` / `H64` / `Address` / `Bloom` values are `Nat`.
-/

/-- Upper bound of the `U256` type: arithmetic overflowing this panics. -/
def u256Lim : Nat := 2 ^ 256

/-- Upper bound of the `u64` type. -/
def u64Lim : Nat := 2 ^ 64

/-- Value of `u64::max_value()`. -/
def u64Max : Nat := 2 ^ 64 - 1

/-- Constant `KECCAK_EMPTY_LIST_RLP`: hash of the RLP encoding of the empty list,
the uncles hash of a block with no uncles. -/
def KECCAK_EMPTY_LIST_RLP : Nat :=
  0x1dcc4de8dec75d7aab85b567b6ccd41ad312451b948a7413f0a142fd40d49347

/-- Constant `EXP_DIFF_PERIOD` from `Ethash::calculate_difficulty`. -/
def EXP_DIFF_PERIOD : Nat := 100000

/-- Model of `unexpected::Mismatch` with payload values embedded as `Nat`. -/
structure Mismatch where
  expected : Nat
  found : Nat
deriving DecidableEq, Repr

/-- Model of `unexpected::OutOfBounds` with payload values embedded as `Nat`. -/
structure OutOfBounds where
  mn : Option Nat
  mx : Option Nat
  found : Nat
deriving DecidableEq, Repr

/-- Model of `rlp::DecoderError` (external crate), constructors relevant to value
decoding. -/
inductive DecoderError where
  | RlpIsTooShort
  | RlpIsTooBig
  | RlpExpectedToBeData
  | RlpInconsistentLengthAndData
  | RlpInvalidIndirection
deriving DecidableEq, Repr

/-- Model of `error::BlockError`: the closed set of consensus-violation reasons.
Payload types `H256`, `U256`, `BlockNumber`, `usize`, `Address`, `Bloom`
and `SystemTime` are all embedded as `Nat`. -/
inductive BlockError where
  | TooManyUncles (o : OutOfBounds)
  | ExtraDataOutOfBounds (o : OutOfBounds)
  | InvalidSealArity (m : Mismatch)
  | TooMuchGasUsed (o : OutOfBounds)
  | InvalidUnclesHash (m : Mismatch)
  | UncleTooOld (o : OutOfBounds)
  | UncleIsBrother (o : OutOfBounds)
  | UncleInChain (h : Nat)
  | DuplicateUncle (h : Nat)
  | UncleParentNotInChain (h : Nat)
  | InvalidStateRoot (m : Mismatch)
  | InvalidGasUsed (m : Mismatch)
  | InvalidTransactionsRoot (m : Mismatch)
  | DifficultyOutOfBounds (o : OutOfBounds)
  | InvalidDifficulty (m : Mismatch)
  | MismatchedH256SealElement (m : Mismatch)
  | InvalidProofOfWork (o : OutOfBounds)
  | InvalidSeal
  | InvalidGasLimit (o : OutOfBounds)
  | InvalidReceiptsRoot (m : Mismatch)
  | InvalidTimestamp (o : OutOfBounds)
  | TemporarilyInvalid (o : OutOfBounds)
  | InvalidLogBloom (m : Mismatch)
  | InvalidNumber (m : Mismatch)
  | RidiculousNumber (o : OutOfBounds)
  | TooManyTransactions (a : Nat)
  | UnknownParent (h : Nat)
  | UnknownUncleParent (h : Nat)
  | UnknownEpochTransition (n : Nat)
deriving DecidableEq, Repr

/-- The aggregate `error::Error` produced by `error_chain!`: wraps block
errors and RLP decode errors (the foreign links the engine code can hit). -/
inductive Error where
  | Block (e : BlockError)
  | Decoder (e : DecoderError)
deriving DecidableEq, Repr

/-- Ethash specific seal (`Seal` in `ethash_wrapper.rs`): mix hash (`H256`)
and nonce (`H64`), both embedded as `Nat`. -/
structure Seal where
  mix_hash : Nat
  nonce : Nat
deriving DecidableEq, Repr

/-- Modelled from the spec: the header field accessors of `crate::header`
(the `header` module itself is not among the sources; §3 `DecodedHeader`).
Only the fields read by the engine code are kept: every accessor the engine
calls (`number`, `timestamp`, `difficulty`, `uncles_hash`, `parent_hash`,
`seal` — here `seal_fields`, as `seal` is reserved — `bare_hash`) is a
plain projection. `bare_hash` is the hash of the
header without its seal, an opaque value at this layer. -/
structure Header where
  parent_hash : Nat
  uncles_hash : Nat
  difficulty : Nat
  number : Nat
  timestamp : Nat
  bare_hash : Nat
  seal_fields : List (List Nat)
deriving DecidableEq, Repr

/-- Model of `EthashParams` from `ethash_wrapper.rs`. The two `BTreeMap`s are
embedded as association lists in ascending key order. -/
structure EthashParams where
  minimum_difficulty : Nat
  difficulty_bound_divisor : Nat
  difficulty_increment_divisor : Nat
  metropolis_difficulty_increment_divisor : Nat
  duration_limit : Nat
  homestead_transition : Nat
  difficulty_hardfork_transition : Nat
  difficulty_hardfork_bound_divisor : Nat
  bomb_defuse_transition : Nat
  eip100b_transition : Nat
  ecip1010_pause_transition : Nat
  ecip1010_continue_transition : Nat
  ecip1017_era_rounds : Nat
  block_reward : List (Nat × Nat)
  expip2_transition : Nat
  expip2_duration_limit : Nat
  block_reward_contract_transition : Nat
  difficulty_bomb_delays : List (Nat × Nat)
deriving DecidableEq, Repr

/-- Divisor selection of `Ethash::calculate_difficulty` (lines 255-260):
the post-hardfork bound divisor once `header.number` reaches
`difficulty_hardfork_transition`, the legacy one before. -/
def selectedBoundDivisor (p : EthashParams) (h : Header) : Nat :=
  if p.difficulty_hardfork_transition ≤ h.number then
    p.difficulty_hardfork_bound_divisor
  else
    p.difficulty_bound_divisor

/-- Duration-limit selection of `Ethash::calculate_difficulty`
(lines 262-267): the EXPIP-2 duration limit once `header.number` reaches
`expip2_transition`, the legacy one before. -/
def selectedDurationLimit (p : EthashParams) (h : Header) : Nat :=
  if p.expip2_transition ≤ h.number then p.expip2_duration_limit
  else p.duration_limit

/-- The `(increment_divisor, threshold)` selection of the post-Homestead branch
of `Ethash::calculate_difficulty` (lines 280-286). -/
def selectedIncrement (p : EthashParams) (h par : Header) : Nat × Nat :=
  if h.number < p.eip100b_transition then
    (p.difficulty_increment_divisor, 1)
  else if par.uncles_hash ≠ KECCAK_EMPTY_LIST_RLP then
    (p.metropolis_difficulty_increment_divisor, 2)
  else
    (p.metropolis_difficulty_increment_divisor, 1)

/-- The pre-clamp target of `Ethash::calculate_difficulty` (lines 271-297):
the pre-Homestead branch and the post-Homestead branch. `none` models a
panic: `u64` add/sub out of range, division by zero, or `U256` add/mul
overflow (`Nat` subtraction is truncated, matching `U256::saturating_sub`;
the `U256` subtraction `d - d/divisor` can never underflow). -/
def preTarget (p : EthashParams) (h par : Header) : Option Nat :=
  if h.number < p.homestead_transition then
    if par.timestamp + selectedDurationLimit p h < u64Lim then
      if selectedBoundDivisor p h = 0 then none
      else if par.timestamp + selectedDurationLimit p h ≤ h.timestamp then
        some (par.difficulty - par.difficulty / selectedBoundDivisor p h)
      else if par.difficulty + par.difficulty / selectedBoundDivisor p h < u256Lim then
        some (par.difficulty + par.difficulty / selectedBoundDivisor p h)
      else none
    else none
  else
    if par.timestamp ≤ h.timestamp then
      if (selectedIncrement p h par).1 = 0 then none
      else if (h.timestamp - par.timestamp) / (selectedIncrement p h par).1 ≤
          (selectedIncrement p h par).2 then
        if selectedBoundDivisor p h = 0 then none
        else if par.difficulty / selectedBoundDivisor p h *
            ((selectedIncrement p h par).2 -
              (h.timestamp - par.timestamp) / (selectedIncrement p h par).1) < u256Lim then
          if par.difficulty + par.difficulty / selectedBoundDivisor p h *
              ((selectedIncrement p h par).2 -
                (h.timestamp - par.timestamp) / (selectedIncrement p h par).1) < u256Lim then
            some (par.difficulty + par.difficulty / selectedBoundDivisor p h *
              ((selectedIncrement p h par).2 -
                (h.timestamp - par.timestamp) / (selectedIncrement p h par).1))
          else none
        else none
      else
        if selectedBoundDivisor p h = 0 then none
        else if par.difficulty / selectedBoundDivisor p h *
            min ((h.timestamp - par.timestamp) / (selectedIncrement p h par).1 -
              (selectedIncrement p h par).2) 99 < u256Lim then
          some (par.difficulty - par.difficulty / selectedBoundDivisor p h *
            min ((h.timestamp - par.timestamp) / (selectedIncrement p h par).1 -
              (selectedIncrement p h par).2) 99)
        else none
    else none

/-- The cumulative bomb-delay subtraction of `Ethash::calculate_difficulty`
(lines 301-307): a left fold over `difficulty_bomb_delays` in list order
(the `BTreeMap` iterates in ascending key order); each threshold is
compared against the original header number, and the running number is
reduced by saturating subtraction (`Nat` subtraction is saturating). -/
def bombDelayedNumber (p : EthashParams) (originalNumber : Nat) : Nat :=
  p.difficulty_bomb_delays.foldl
    (fun n bd => if bd.1 ≤ originalNumber then n - bd.2 else n) originalNumber

/-- The period used by the resumed (post-ECIP1010-continue) bomb branch
(line 316): `(parent.number + 1) / EXP_DIFF_PERIOD`. -/
def resumedPeriod (par : Header) : Nat :=
  (par.number + 1) / EXP_DIFF_PERIOD

/-- The difficulty-bomb step of `Ethash::calculate_difficulty`
(lines 299-320), applied to the already-clamped `target`. `U256 << k`
wraps, so the bomb addend is `2 ^ k % 2 ^ 256`; `none` models a
`u64`/`usize` underflow or `U256` overflow panic. -/
def bombAdjust (p : EthashParams) (h par : Header)
    (min_difficulty target : Nat) : Option Nat :=
  if h.number < p.bomb_defuse_transition then
    if h.number < p.ecip1010_pause_transition then
      if 1 < bombDelayedNumber p h.number / EXP_DIFF_PERIOD then
        if target + 2 ^ (bombDelayedNumber p h.number / EXP_DIFF_PERIOD - 2) % u256Lim < u256Lim then
          some (max min_difficulty
            (target + 2 ^ (bombDelayedNumber p h.number / EXP_DIFF_PERIOD - 2) % u256Lim))
        else none
      else some target
    else if h.number < p.ecip1010_continue_transition then
      if 2 ≤ p.ecip1010_pause_transition / EXP_DIFF_PERIOD then
        if target + 2 ^ (p.ecip1010_pause_transition / EXP_DIFF_PERIOD - 2) % u256Lim < u256Lim then
          some (max min_difficulty
            (target + 2 ^ (p.ecip1010_pause_transition / EXP_DIFF_PERIOD - 2) % u256Lim))
        else none
      else none
    else
      if par.number + 1 < u64Lim then
        if p.ecip1010_pause_transition ≤ p.ecip1010_continue_transition then
          if (p.ecip1010_continue_transition - p.ecip1010_pause_transition) / EXP_DIFF_PERIOD + 2 ≤
              resumedPeriod par then
            if target + 2 ^ (resumedPeriod par -
                (p.ecip1010_continue_transition - p.ecip1010_pause_transition) / EXP_DIFF_PERIOD - 2) %
                u256Lim < u256Lim then
              some (max min_difficulty
                (target + 2 ^ (resumedPeriod par -
                  (p.ecip1010_continue_transition - p.ecip1010_pause_transition) / EXP_DIFF_PERIOD - 2) %
                  u256Lim))
            else none
          else none
        else none
      else none
  else some target

/-- Model of `Ethash::calculate_difficulty` (lines 245-322): panics on genesis
(`none`), computes the pre-clamp target, clamps it at
`minimum_difficulty`, then applies the difficulty-bomb step. -/
def calculate_difficulty (p : EthashParams) (h par : Header) : Option Nat :=
  if h.number = 0 then none
  else
    match preTarget p h par with
    | none => none
    | some t =>
      bombAdjust p h par p.minimum_difficulty (max p.minimum_difficulty t)

/-- Model of `Seal::parse_seal` (lines 47-65). The two entries are decoded by the
external `rlp` crate (`Rlp::as_val` for `H256` respectively `H64`); those
decoders are passed in as functions from the raw entry bytes to the decoded
value or a `DecoderError`. The `?` operator lifts a decode failure into the
aggregate error (`Error.Decoder`). -/
def parse_seal (decH256 decH64 : List Nat → Except DecoderError Nat)
    (sealFields : List (List Nat)) : Except Error Seal :=
  match sealFields with
  | [s0, s1] =>
    match decH256 s0 with
    | .error e => .error (.Decoder e)
    | .ok mix_hash =>
      match decH64 s1 with
      | .error e => .error (.Decoder e)
      | .ok nonce => .ok { mix_hash := mix_hash, nonce := nonce }
  | _ =>
    .error (.Block (.InvalidSealArity
      { expected := 2, found := sealFields.length }))

/-- Model of `Ethash::verify_block_unordered` (lines 205-226). The external PoW
facility is passed in: `computeLight (number, bare_hash, nonce)` returns
the pair (mix hash, PoW value) of `EthashManager::compute_light`, and
`boundaryToDifficulty` is `ethash::boundary_to_difficulty`. The RLP value
decoders for the seal are passed through to `parse_seal`. -/
def verify_block_unordered
    (computeLight : Nat → Nat → Nat → Nat × Nat)
    (boundaryToDifficulty : Nat → Nat)
    (decH256 decH64 : List Nat → Except DecoderError Nat)
    (h : Header) : Except Error Unit :=
  match parse_seal decH256 decH64 h.seal_fields with
  | .error e => .error e
  | .ok s =>
    let result := computeLight h.number h.bare_hash s.nonce
    let mix := result.1
    let difficulty := boundaryToDifficulty result.2
    if mix ≠ s.mix_hash then
      .error (.Block (.MismatchedH256SealElement
        { expected := mix, found := s.mix_hash }))
    else if difficulty < h.difficulty then
      .error (.Block (.InvalidProofOfWork
        { mn := some h.difficulty, mx := none, found := difficulty }))
    else .ok ()

/-- Model of `Ethash::verify_block_family` (lines 228-241). The outer `Option`
models the possible panic of `calculate_difficulty` (`none`); a defined run
yields `Except Error Unit`. -/
def verify_block_family (p : EthashParams) (h par : Header) :
    Option (Except Error Unit) :=
  if h.number = 0 then
    some (.error (.Block (.RidiculousNumber
      { mn := some 1, mx := none, found := h.number })))
  else
    match calculate_difficulty p h par with
    | none => none
    | some expected =>
      if h.difficulty ≠ expected then
        some (.error (.Block (.InvalidDifficulty
          { expected := expected, found := h.difficulty })))
      else some (.ok ())

/-- The `for _ in 0..eras` loop of `ecip1017_eras_block_reward`: multiply
`reward` by 4 and `divi` by 5, `eras` times; each `U256` multiplication is
overflow-checked (`none` models the panic). -/
def ecip1017Loop : Nat → Nat → Nat → Option (Nat × Nat)
  | 0, reward, divi => some (reward, divi)
  | k + 1, reward, divi =>
    if reward * 4 < u256Lim ∧ divi * 5 < u256Lim then
      ecip1017Loop k (reward * 4) (divi * 5)
    else none

/-- The `eras` computation of `ecip1017_eras_block_reward` (lines 326-330):
an exact era boundary belongs to the previous era. -/
def ecip1017Era (era_rounds block_number : Nat) : Nat :=
  if block_number ≠ 0 ∧ block_number % era_rounds = 0 then
    block_number / era_rounds - 1
  else
    block_number / era_rounds

/-- Model of `ecip1017_eras_block_reward` (lines 325-338). `era_rounds = 0` makes
`block_number % era_rounds` panic (`none`); the geometric decay loop is
`ecip1017Loop` followed by one final truncating division. -/
def ecip1017_eras_block_reward (era_rounds reward block_number : Nat) :
    Option (Nat × Nat) :=
  if era_rounds = 0 then none
  else
    match ecip1017Loop (ecip1017Era era_rounds block_number) reward 1 with
    | none => none
    | some rd => some (ecip1017Era era_rounds block_number, rd.1 / rd.2)

/-- Model of `ethjson::spec::EthashParams` (external JSON configuration object) as
consumed by the `From` impl in `ethash_wrapper.rs`: every optional field is
an `Option`, numeric payloads are `Nat`. -/
structure JsonEthashParams where
  minimum_difficulty : Nat
  difficulty_bound_divisor : Nat
  difficulty_increment_divisor : Option Nat
  metropolis_difficulty_increment_divisor : Option Nat
  duration_limit : Option Nat
  homestead_transition : Option Nat
  difficulty_hardfork_transition : Option Nat
  difficulty_hardfork_bound_divisor : Option Nat
  bomb_defuse_transition : Option Nat
  eip100b_transition : Option Nat
  ecip1010_pause_transition : Option Nat
  ecip1010_continue_transition : Option Nat
  ecip1017_era_rounds : Option Nat
  block_reward : Option (Nat ⊕ List (Nat × Nat))
  expip2_transition : Option Nat
  expip2_duration_limit : Option Nat
  block_reward_contract_transition : Option Nat
  difficulty_bomb_delays : Option (List (Nat × Nat))
deriving DecidableEq, Repr

/-- Model of `impl From<ethjson::spec::EthashParams> for EthashParams`
(lines 111-160): field-by-field conversion with the per-field defaults.
`BlockReward::Single` is the left summand, `BlockReward::Multi` the right. -/
def ethashParamsFromJson (p : JsonEthashParams) : EthashParams :=
  { minimum_difficulty := p.minimum_difficulty
    difficulty_bound_divisor := p.difficulty_bound_divisor
    difficulty_increment_divisor :=
      p.difficulty_increment_divisor.getD 10
    metropolis_difficulty_increment_divisor :=
      p.metropolis_difficulty_increment_divisor.getD 9
    duration_limit := p.duration_limit.getD 0
    homestead_transition := p.homestead_transition.getD 0
    difficulty_hardfork_transition :=
      p.difficulty_hardfork_transition.getD u64Max
    difficulty_hardfork_bound_divisor :=
      p.difficulty_hardfork_bound_divisor.getD p.difficulty_bound_divisor
    bomb_defuse_transition := p.bomb_defuse_transition.getD u64Max
    eip100b_transition := p.eip100b_transition.getD u64Max
    ecip1010_pause_transition := p.ecip1010_pause_transition.getD u64Max
    ecip1010_continue_transition :=
      p.ecip1010_continue_transition.getD u64Max
    ecip1017_era_rounds := p.ecip1017_era_rounds.getD u64Max
    block_reward :=
      match p.block_reward with
      | none => [(0, 0)]
      | some (.inl reward) => [(0, reward)]
      | some (.inr multi) => multi
    expip2_transition := p.expip2_transition.getD u64Max
    expip2_duration_limit := p.expip2_duration_limit.getD 30
    block_reward_contract_transition :=
      p.block_reward_contract_transition.getD 0
    difficulty_bomb_delays := p.difficulty_bomb_delays.getD [] }

/-- Frontier-like parameters of the spec's end-to-end scenario:
`minimum_difficulty = 131072`, bound divisor 2048, duration limit 13,
every transition still in the future, no bomb delays. -/
def endToEndParams : EthashParams :=
  { minimum_difficulty := 131072
    difficulty_bound_divisor := 2048
    difficulty_increment_divisor := 10
    metropolis_difficulty_increment_divisor := 9
    duration_limit := 13
    homestead_transition := u64Max
    difficulty_hardfork_transition := u64Max
    difficulty_hardfork_bound_divisor := 2048
    bomb_defuse_transition := u64Max
    eip100b_transition := u64Max
    ecip1010_pause_transition := u64Max
    ecip1010_continue_transition := u64Max
    ecip1017_era_rounds := u64Max
    block_reward := [(0, 0)]
    expip2_transition := u64Max
    expip2_duration_limit := 30
    block_reward_contract_transition := 0
    difficulty_bomb_delays := [] }

/-- Header of the end-to-end scenario: number 1, timestamp 1013, claimed
difficulty 131072. -/
def endToEndHeader : Header :=
  { parent_hash := 0
    uncles_hash := KECCAK_EMPTY_LIST_RLP
    difficulty := 131072
    number := 1
    timestamp := 1013
    bare_hash := 0
    seal_fields := [] }

/-- Parent of the end-to-end scenario: difficulty 100000, timestamp 1000,
no uncles. -/
def endToEndParent : Header :=
  { parent_hash := 0
    uncles_hash := KECCAK_EMPTY_LIST_RLP
    difficulty := 100000
    number := 0
    timestamp := 1000
    bare_hash := 0
    seal_fields := [] }

/-- A parent whose number is unrelated to the header's number, used to show
that `verify_block_family` imposes no parent-linkage condition. -/
def unlinkedParent : Header :=
  { endToEndParent with number := 77, parent_hash := 4242 }

/-- Parameters that put block 1 on the pre-Homestead increase branch with
bound divisor 1, so a parent difficulty of `2^256 - 1` overflows `U256`. -/
def overflowParams : EthashParams :=
  { endToEndParams with minimum_difficulty := 1, difficulty_bound_divisor := 1 }

/-- Header hitting the pre-Homestead increase branch of `overflowParams`
(timestamp below parent timestamp + duration limit). -/
def overflowHeader : Header :=
  { endToEndHeader with timestamp := 1000 }

/-- Parent of maximal `U256` difficulty: the increase branch computes
`(2^256 - 1) + (2^256 - 1)`, an overflow panic. -/
def overflowParent : Header :=
  { endToEndParent with difficulty := 2 ^ 256 - 1 }

/-- Variant of `endToEndParams` with Homestead active from block 0, used for the
post-Homestead and difficulty-bomb scenarios. -/
def postHomesteadParams : EthashParams :=
  { endToEndParams with homestead_transition := 0 }

/-- Header at number 300000 (bomb period 3 with no delay entries),
timestamp equal to the parent's. -/
def bombPeriod3Header : Header :=
  { endToEndHeader with number := 300000, timestamp := 1000 }

/-- Header at number 25800000: bomb period 258, whose 256-bit shift wraps
to zero. -/
def bombWrapHeader : Header :=
  { endToEndHeader with number := 25800000, timestamp := 1000 }

/-- Parent of difficulty exactly `minimum_difficulty`, for the bomb-wrap
scenario. -/
def bombWrapParent : Header :=
  { endToEndParent with difficulty := 131072 }

/-- An `ethjson` configuration with both required fields set and every
optional field absent. -/
def jsonAllUnset : JsonEthashParams :=
  { minimum_difficulty := 131072
    difficulty_bound_divisor := 2048
    difficulty_increment_divisor := none
    metropolis_difficulty_increment_divisor := none
    duration_limit := none
    homestead_transition := none
    difficulty_hardfork_transition := none
    difficulty_hardfork_bound_divisor := none
    bomb_defuse_transition := none
    eip100b_transition := none
    ecip1010_pause_transition := none
    ecip1010_continue_transition := none
    ecip1017_era_rounds := none
    block_reward := none
    expip2_transition := none
    expip2_duration_limit := none
    block_reward_contract_transition := none
    difficulty_bomb_delays := none }

/-- A stand-in RLP value decoder that always succeeds with value 5. -/
def decOk5 : List Nat → Except DecoderError Nat := fun _ => .ok 5

/-- A stand-in RLP value decoder that always fails. -/
def decShort : List Nat → Except DecoderError Nat := fun _ => .error .RlpIsTooShort

/-- A stand-in external PoW facility returning mix hash 9 and PoW value 0
for every query. -/
def computeLightMix9 : Nat → Nat → Nat → Nat × Nat := fun _ _ _ => (9, 0)

/-- A stand-in boundary-to-difficulty conversion returning 0. -/
def boundaryZero : Nat → Nat := fun _ => 0

/-- A header with a parseable two-entry seal for the `verify_block_unordered`
scenarios (under `decOk5` both entries decode to 5). -/
def sealedHeader : Header :=
  { endToEndHeader with seal_fields := [[0], [1]], difficulty := 0 }

/-- The wrapped bomb addend `2 ^ e % 2 ^ 256` never exceeds `2 ^ 255`: for
`e < 256` it is `2 ^ e ≤ 2 ^ 255`, for `e ≥ 256` the shift wraps to 0. -/
theorem pow2_mod_u256_le (e : Nat) : 2 ^ e % u256Lim ≤ 2 ^ 255 := by
  unfold u256Lim
  by_cases he : e < 256
  · rw [Nat.mod_eq_of_lt (Nat.pow_lt_pow_right (by norm_num) he)]
    exact Nat.pow_le_pow_right (by norm_num) (by omega)
  · have hdvd : 2 ^ 256 ∣ 2 ^ e := pow_dvd_pow 2 (by omega)
    rw [Nat.mod_eq_zero_of_dvd hdvd]
    exact Nat.zero_le _

/-- Every value `bombAdjust` returns is at least `min_difficulty`, provided
its input target already is: each bomb branch re-applies the clamp and the
skip branches leave the clamped target unchanged. -/
theorem bombAdjust_min_le (p : EthashParams) (h par : Header)
    (m t d : Nat) (ht : m ≤ t) (heq : bombAdjust p h par m t = some d) :
    m ≤ d := by
  unfold bombAdjust at heq
  split_ifs at heq
  all_goals
    first
      | exact Option.noConfusion heq
      | (injection heq with heq; subst heq; exact le_max_left _ _)
      | (injection heq with heq; subst heq; exact ht)

/-- Claim C1: for every header/parent/params triple on which
`calculate_difficulty` returns a value, that value is at least the
configured `minimum_difficulty`: the clamp `max(minimum_difficulty, target)`
is applied before the bomb step, and every bomb-addition branch re-applies
the same clamp. -/
theorem calculate_difficulty_ge_minimum (p : EthashParams) (h par : Header)
    (d : Nat) (heq : calculate_difficulty p h par = some d) :
    p.minimum_difficulty ≤ d := by
  unfold calculate_difficulty at heq
  by_cases h0 : h.number = 0
  · rw [if_pos h0] at heq; exact Option.noConfusion heq
  · rw [if_neg h0] at heq
    cases hpre : preTarget p h par with
    | none => rw [hpre] at heq; exact Option.noConfusion heq
    | some t =>
      rw [hpre] at heq
      exact bombAdjust_min_le p h par _ _ d (le_max_left _ _) heq

/-- Function `preTarget` is defined (no panic) whenever the selected divisors are
nonzero, the timestamps are ordered, the parent timestamp plus the duration
limit fits in `u64`, and the parent difficulty is small enough that no
`U256` addition or multiplication can overflow; the result is at most
`100 × parent.difficulty`. -/
theorem preTarget_total (p : EthashParams) (h par : Header)
    (hdiv : selectedBoundDivisor p h ≠ 0)
    (hinc : (selectedIncrement p h par).1 ≠ 0)
    (hts : par.timestamp ≤ h.timestamp)
    (hdur : par.timestamp + selectedDurationLimit p h < u64Lim)
    (hd : par.difficulty < 2 ^ 240) :
    ∃ t, preTarget p h par = some t ∧ t ≤ 100 * par.difficulty := by
  have hq : par.difficulty / selectedBoundDivisor p h ≤ par.difficulty :=
    Nat.div_le_self _ _
  have hthr : (selectedIncrement p h par).2 ≤ 2 := by
    unfold selectedIncrement; split_ifs <;> simp
  have h256 : (2 : Nat) ^ 240 * 101 < u256Lim := by
    simp only [u256Lim]; norm_num
  unfold preTarget
  set q := par.difficulty / selectedBoundDivisor p h
  clear_value q
  by_cases hfrontier : h.number < p.homestead_transition
  · rw [if_pos hfrontier, if_pos hdur, if_neg hdiv]
    by_cases hdec : par.timestamp + selectedDurationLimit p h ≤ h.timestamp
    · rw [if_pos hdec]
      exact ⟨_, rfl, by omega⟩
    · rw [if_neg hdec, if_pos (by omega)]
      exact ⟨_, rfl, by omega⟩
  · rw [if_neg hfrontier, if_pos hts, if_neg hinc]
    set di := (h.timestamp - par.timestamp) / (selectedIncrement p h par).1
    clear_value di
    by_cases hle : di ≤ (selectedIncrement p h par).2
    · rw [if_pos hle, if_neg hdiv]
      have hprod : q * ((selectedIncrement p h par).2 - di) ≤
          par.difficulty * 2 := Nat.mul_le_mul hq (by omega)
      rw [if_pos (by omega), if_pos (by omega)]
      exact ⟨_, rfl, by omega⟩
    · rw [if_neg hle, if_neg hdiv]
      have hprod : q * min (di - (selectedIncrement p h par).2) 99 ≤
          par.difficulty * 99 := Nat.mul_le_mul hq (Nat.min_le_right _ _)
      rw [if_pos (by omega)]
      exact ⟨_, rfl, by omega⟩

/-- When `header.number ≠ 0` and `preTarget` is defined,
`calculate_difficulty` is the bomb step applied to the clamped target. -/
theorem calculate_difficulty_eq_bombAdjust (p : EthashParams) (h par : Header)
    (t : Nat) (h0 : h.number ≠ 0) (hpre : preTarget p h par = some t) :
    calculate_difficulty p h par =
      bombAdjust p h par p.minimum_difficulty (max p.minimum_difficulty t) := by
  unfold calculate_difficulty
  rw [if_neg h0, hpre]

/-- Claim C2 (amended): `calculate_difficulty` is a pure function of its
arguments (it is embedded as one), and it is total — returns a value
rather than panicking — for `header.number ≥ 1` provided additionally that
the selected divisors are nonzero, `header.timestamp ≥ parent.timestamp`,
`parent.timestamp` plus the selected duration limit fits in `u64`,
`parent.difficulty < 2^240`, `minimum_difficulty < 2^250`, and the header is
in the pre-ECIP1010-pause or bomb-defused regime. Outside these bounds the
code can panic on `U256` overflow (see the counterexample). -/
theorem calculate_difficulty_total (p : EthashParams) (h par : Header)
    (h0 : h.number ≠ 0)
    (hdiv : selectedBoundDivisor p h ≠ 0)
    (hinc : (selectedIncrement p h par).1 ≠ 0)
    (hts : par.timestamp ≤ h.timestamp)
    (hdur : par.timestamp + selectedDurationLimit p h < u64Lim)
    (hd : par.difficulty < 2 ^ 240)
    (hmin : p.minimum_difficulty < 2 ^ 250)
    (hbomb : h.number < p.ecip1010_pause_transition ∨
      p.bomb_defuse_transition ≤ h.number) :
    ∃ d, calculate_difficulty p h par = some d := by
  obtain ⟨t, hpre, hbound⟩ := preTarget_total p h par hdiv hinc hts hdur hd
  rw [calculate_difficulty_eq_bombAdjust p h par t h0 hpre]
  have htarget : max p.minimum_difficulty t < 2 ^ 250 :=
    Nat.max_lt.mpr ⟨hmin, by omega⟩
  unfold bombAdjust
  by_cases hdef : h.number < p.bomb_defuse_transition
  · rw [if_pos hdef]
    have hpse : h.number < p.ecip1010_pause_transition := by
      rcases hbomb with hb | hb
      · exact hb
      · omega
    rw [if_pos hpse]
    by_cases hper : 1 < bombDelayedNumber p h.number / EXP_DIFF_PERIOD
    · rw [if_pos hper]
      have hadd : 2 ^ (bombDelayedNumber p h.number / EXP_DIFF_PERIOD - 2) %
          u256Lim ≤ 2 ^ 255 := pow2_mod_u256_le _
      have h256 : (2 : Nat) ^ 250 + 2 ^ 255 < u256Lim := by
        simp only [u256Lim]; norm_num
      rw [if_pos (by omega)]
      exact ⟨_, rfl⟩
    · rw [if_neg hper]
      exact ⟨_, rfl⟩
  · rw [if_neg hdef]
    exact ⟨_, rfl⟩

/-- Counterexample for C2 as stated: at block number 1 (a valid input) with
a parent of difficulty `2^256 - 1` and bound divisor 1, the pre-Homestead
increase branch computes `(2^256 - 1) + (2^256 - 1)`, which overflows
`U256` — the `uint` crate panics, so `calculate_difficulty` is not total
over all inputs with `header.number ≥ 1`. -/
theorem calculate_difficulty_overflow_counterexample :
    overflowHeader.number ≠ 0 ∧
    calculate_difficulty overflowParams overflowHeader overflowParent = none := by
  decide

/-- Witness for the amended C2: on the end-to-end scenario every side
condition holds and `calculate_difficulty` returns a value. -/
theorem calculate_difficulty_total_witness :
    ∃ d, calculate_difficulty endToEndParams endToEndHeader endToEndParent =
      some d :=
  calculate_difficulty_total endToEndParams endToEndHeader endToEndParent
    (by decide) (by decide) (by decide) (by decide) (by decide) (by decide)
    (by decide) (Or.inl (by decide))

/-- The cumulative saturating subtraction over the bomb-delay table equals
one saturating subtraction of the sum of the qualifying delays: each
threshold is compared against the original number and `Nat` subtraction is
truncated, so the visit order is irrelevant to the final value. -/
theorem foldl_delay_eq_sub_sum (orig : Nat) (l : List (Nat × Nat)) (n : Nat) :
    l.foldl (fun acc bd => if bd.1 ≤ orig then acc - bd.2 else acc) n =
      n - ((l.filter (fun bd => bd.1 ≤ orig)).map Prod.snd).sum := by
  induction l generalizing n with
  | nil => simp
  | cons bd tl ih =>
    by_cases hb : bd.1 ≤ orig
    · simp [hb, ih, Nat.sub_sub]
    · simp [hb, ih]

/-- Claim C3 (amended): when the bomb is neither defused nor in an ECIP1010
window, the adjusted number is the header number minus the sum of all
delay-table entries whose threshold is at most the (original) header
number, saturating at zero; with `period = adjusted / 100000`, `period ≤ 1`
adds nothing, and `period > 1` adds `2^(period−2)` *reduced mod `2^256`*
(the `U256` shift wraps, so `period ≥ 258` adds 0) re-clamped at
`minimum_difficulty`, provided the addition does not overflow; in the exact
regime `period − 2 < 256` the addend is exactly `2^(period−2)` — e.g.
`period = 1` yields no addition and `period = 3` adds exactly 2. -/
theorem bomb_step_characterization (p : EthashParams) (h par : Header)
    (t : Nat)
    (h0 : h.number ≠ 0)
    (hdef : h.number < p.bomb_defuse_transition)
    (hpse : h.number < p.ecip1010_pause_transition)
    (hpre : preTarget p h par = some t) :
    bombDelayedNumber p h.number =
      h.number -
        ((p.difficulty_bomb_delays.filter
          (fun bd => bd.1 ≤ h.number)).map Prod.snd).sum ∧
    (bombDelayedNumber p h.number / EXP_DIFF_PERIOD ≤ 1 →
      calculate_difficulty p h par = some (max p.minimum_difficulty t)) ∧
    (∀ period, period = bombDelayedNumber p h.number / EXP_DIFF_PERIOD →
      1 < period → period - 2 < 256 →
      max p.minimum_difficulty t + 2 ^ (period - 2) < u256Lim →
      calculate_difficulty p h par =
        some (max p.minimum_difficulty
          (max p.minimum_difficulty t + 2 ^ (period - 2)))) := by
  refine ⟨?_, ?_, ?_⟩
  · unfold bombDelayedNumber
    exact foldl_delay_eq_sub_sum h.number p.difficulty_bomb_delays h.number
  · intro hper
    rw [calculate_difficulty_eq_bombAdjust p h par t h0 hpre]
    unfold bombAdjust
    rw [if_pos hdef, if_pos hpse, if_neg (by omega)]
  · intro period hperiod h1 h2 h3
    subst hperiod
    rw [calculate_difficulty_eq_bombAdjust p h par t h0 hpre]
    unfold bombAdjust
    have hmod : 2 ^ (bombDelayedNumber p h.number / EXP_DIFF_PERIOD - 2) %
        u256Lim = 2 ^ (bombDelayedNumber p h.number / EXP_DIFF_PERIOD - 2) :=
      Nat.mod_eq_of_lt (by
        simp only [u256Lim]
        exact Nat.pow_lt_pow_right one_lt_two h2)
    rw [if_pos hdef, if_pos hpse, if_pos h1, hmod, if_pos h3]

/-- Counterexample for C3 as stated: at header number 25800000 with an
empty delay table the period is 258, so the claimed addition is
`2^(258−2) = 2^256`; the `U256` shift wraps that addend to zero and the
code returns the unchanged clamped target 131136, not
`max(minimum_difficulty, 131136 + 2^256)`. -/
theorem bomb_shift_wrap_counterexample :
    calculate_difficulty postHomesteadParams bombWrapHeader bombWrapParent =
      some 131136 ∧
    bombDelayedNumber postHomesteadParams bombWrapHeader.number /
      EXP_DIFF_PERIOD = 258 ∧
    (131136 : Nat) ≠
      max postHomesteadParams.minimum_difficulty (131136 + 2 ^ (258 - 2)) := by
  decide

/-- Witness for the amended C3: at header number 300000 (period 3) the bomb
adds exactly 2 on top of the clamped target 131072. -/
theorem bomb_step_characterization_witness :
    calculate_difficulty postHomesteadParams bombPeriod3Header endToEndParent =
      some 131074 := by
  have happ := (bomb_step_characterization postHomesteadParams
    bombPeriod3Header endToEndParent 100048 (by decide) (by decide)
    (by decide) (by decide)).2.2 3 (by decide) (by decide) (by decide)
    (by decide)
  exact happ.trans (by decide)

/-- Claim C4: for post-Homestead headers with `header.timestamp ≥
parent.timestamp`, the (increment divisor, threshold) pair is selected by
era — pre-EIP100b (legacy divisor, 1); at/after EIP100b (Metropolis
divisor, 2) with an uncled parent and (Metropolis divisor, 1) without —
and with `diff_inc = (header.timestamp − parent.timestamp) /
increment_divisor` the pre-clamp target is
`parent.difficulty + parent.difficulty/divisor × (threshold − diff_inc)`
when `diff_inc ≤ threshold`, else `parent.difficulty` saturating-minus
`parent.difficulty/divisor × min(diff_inc − threshold, 99)` (truncated
`Nat` subtraction cannot drop below zero). Stated under no-overflow side
conditions so that the `U256` arithmetic is exact. -/
theorem post_homestead_pre_clamp (p : EthashParams) (h par : Header)
    (hpost : p.homestead_transition ≤ h.number)
    (hts : par.timestamp ≤ h.timestamp)
    (hdiv : selectedBoundDivisor p h ≠ 0)
    (hinc : (selectedIncrement p h par).1 ≠ 0)
    (hd : par.difficulty * 99 < u256Lim) :
    selectedIncrement p h par =
      (if h.number < p.eip100b_transition then
        (p.difficulty_increment_divisor, 1)
      else if par.uncles_hash ≠ KECCAK_EMPTY_LIST_RLP then
        (p.metropolis_difficulty_increment_divisor, 2)
      else
        (p.metropolis_difficulty_increment_divisor, 1)) ∧
    preTarget p h par = some
      (if (h.timestamp - par.timestamp) / (selectedIncrement p h par).1 ≤
          (selectedIncrement p h par).2 then
        par.difficulty + par.difficulty / selectedBoundDivisor p h *
          ((selectedIncrement p h par).2 -
            (h.timestamp - par.timestamp) / (selectedIncrement p h par).1)
      else
        par.difficulty - par.difficulty / selectedBoundDivisor p h *
          min ((h.timestamp - par.timestamp) / (selectedIncrement p h par).1 -
            (selectedIncrement p h par).2) 99) := by
  refine ⟨rfl, ?_⟩
  have hq : par.difficulty / selectedBoundDivisor p h ≤ par.difficulty :=
    Nat.div_le_self _ _
  have hthr : (selectedIncrement p h par).2 ≤ 2 := by
    unfold selectedIncrement; split_ifs <;> simp
  unfold preTarget
  rw [if_neg (by omega), if_pos hts, if_neg hinc]
  set q := par.difficulty / selectedBoundDivisor p h
  clear_value q
  set di := (h.timestamp - par.timestamp) / (selectedIncrement p h par).1
  clear_value di
  by_cases hle : di ≤ (selectedIncrement p h par).2
  · rw [if_pos hle, if_neg hdiv]
    have hprod : q * ((selectedIncrement p h par).2 - di) ≤
        par.difficulty * 2 := Nat.mul_le_mul hq (by omega)
    rw [if_pos (by omega), if_pos (by omega), if_pos hle]
  · rw [if_neg hle, if_neg hdiv]
    have hprod : q * min (di - (selectedIncrement p h par).2) 99 ≤
        par.difficulty * 99 := Nat.mul_le_mul hq (Nat.min_le_right _ _)
    rw [if_pos (by omega), if_neg hle]

/-- Witness for C4: post-Homestead legacy era, `diff_inc = 1 = threshold`,
so the pre-clamp target is exactly the parent difficulty. -/
theorem post_homestead_pre_clamp_witness :
    preTarget postHomesteadParams endToEndHeader endToEndParent =
      some 100000 := by
  have happ := (post_homestead_pre_clamp postHomesteadParams endToEndHeader
    endToEndParent (by decide) (by decide) (by decide) (by decide)
    (by decide)).2
  exact happ.trans (by decide)

/-- Claim C5: for pre-Homestead headers, the decrease branch
`parent.difficulty − parent.difficulty/divisor` is taken exactly when
`header.timestamp ≥ parent.timestamp + duration_limit` (inclusive
boundary), and the increase branch
`parent.difficulty + parent.difficulty/divisor` otherwise. -/
theorem pre_homestead_target (p : EthashParams) (h par : Header)
    (hfront : h.number < p.homestead_transition)
    (hdur : par.timestamp + selectedDurationLimit p h < u64Lim)
    (hdiv : selectedBoundDivisor p h ≠ 0)
    (hov : par.difficulty + par.difficulty / selectedBoundDivisor p h <
      u256Lim) :
    (par.timestamp + selectedDurationLimit p h ≤ h.timestamp →
      preTarget p h par =
        some (par.difficulty - par.difficulty / selectedBoundDivisor p h)) ∧
    (h.timestamp < par.timestamp + selectedDurationLimit p h →
      preTarget p h par =
        some (par.difficulty + par.difficulty / selectedBoundDivisor p h)) := by
  constructor
  · intro hdec
    unfold preTarget
    rw [if_pos hfront, if_pos hdur, if_neg hdiv, if_pos hdec]
  · intro hinc
    unfold preTarget
    rw [if_pos hfront, if_pos hdur, if_neg hdiv, if_neg (by omega),
      if_pos hov]

/-- Witness for C5, on the spec's boundary scenario with `T = 1000` and
`D = 13`: timestamp 1013 = T + D takes the decrease branch (result
99952 = 100000 − 48) and timestamp 1012 = T + D − 1 takes the increase
branch (result 100048). -/
theorem pre_homestead_target_witness :
    preTarget endToEndParams endToEndHeader endToEndParent = some 99952 ∧
    preTarget endToEndParams { endToEndHeader with timestamp := 1012 }
      endToEndParent = some 100048 :=
  ⟨((pre_homestead_target endToEndParams endToEndHeader endToEndParent
      (by decide) (by decide) (by decide) (by decide)).1 (by decide)).trans
      (by decide),
   ((pre_homestead_target endToEndParams
      { endToEndHeader with timestamp := 1012 } endToEndParent
      (by decide) (by decide) (by decide) (by decide)).2 (by decide)).trans
      (by decide)⟩

/-- The decay loop multiplies the reward by `4^k` and the divisor by
`5^k`; every intermediate product is bounded by the final one, so the final
no-overflow bounds keep the whole loop defined. -/
theorem ecip1017Loop_eq (k r d : Nat)
    (hr : r * 4 ^ k < u256Lim) (hd : d * 5 ^ k < u256Lim) :
    ecip1017Loop k r d = some (r * 4 ^ k, d * 5 ^ k) := by
  induction k generalizing r d with
  | zero => simp [ecip1017Loop]
  | succ k ih =>
    have h4 : (4 : Nat) ≤ 4 ^ (k + 1) := Nat.le_self_pow (by omega) 4
    have h5 : (5 : Nat) ≤ 5 ^ (k + 1) := Nat.le_self_pow (by omega) 5
    have hr4 : r * 4 < u256Lim := lt_of_le_of_lt (Nat.mul_le_mul_left r h4) hr
    have hd5 : d * 5 < u256Lim := lt_of_le_of_lt (Nat.mul_le_mul_left d h5) hd
    have hr' : r * 4 * 4 ^ k < u256Lim := by
      rw [mul_assoc, ← pow_succ']; exact hr
    have hd' : d * 5 * 5 ^ k < u256Lim := by
      rw [mul_assoc, ← pow_succ']; exact hd
    unfold ecip1017Loop
    rw [if_pos ⟨hr4, hd5⟩, ih _ _ hr' hd', mul_assoc, ← pow_succ',
      mul_assoc, ← pow_succ']

/-- Claim C6 (amended): for `era_rounds > 0`, the era is
`block_number/era_rounds − 1` when `block_number ≠ 0` and
`block_number mod era_rounds = 0`, else `block_number/era_rounds` (an exact
boundary belongs to the previous era); the reward is
`(base_reward × 4^era) / 5^era` with a single final truncating division —
provided the products `base_reward × 4^era` and `5^era` stay below `2^256`
(outside that regime the `U256` multiplications panic, see the
counterexample). -/
theorem ecip1017_eras_block_reward_spec (era_rounds reward block_number : Nat)
    (h0 : era_rounds ≠ 0)
    (hr : reward * 4 ^ ecip1017Era era_rounds block_number < u256Lim)
    (hdv : 5 ^ ecip1017Era era_rounds block_number < u256Lim) :
    ecip1017Era era_rounds block_number =
      (if block_number ≠ 0 ∧ block_number % era_rounds = 0 then
        block_number / era_rounds - 1
      else block_number / era_rounds) ∧
    ecip1017_eras_block_reward era_rounds reward block_number =
      some (ecip1017Era era_rounds block_number,
        reward * 4 ^ ecip1017Era era_rounds block_number /
          5 ^ ecip1017Era era_rounds block_number) := by
  refine ⟨rfl, ?_⟩
  unfold ecip1017_eras_block_reward
  rw [if_neg h0, ecip1017Loop_eq _ _ _ hr (by simpa using hdv)]
  simp

/-- Counterexample for C6 as stated: with `era_rounds = 1 > 0`,
`base_reward = 1` and `block_number = 128` the era is 127 and the claimed
reward would be `4^127 / 5^127 = 0`, but the accumulated divisor `5^era`
overflows `U256` during the loop, so the code panics instead of returning
a value. -/
theorem ecip1017_overflow_counterexample :
    (1 : Nat) ≠ 0 ∧ ecip1017_eras_block_reward 1 1 128 = none := by
  decide

/-- Witness for the amended C6: `era_rounds = 5,000,000`; block 5,000,001
is era 1 with reward `7 × 4 / 5 = 5`, and boundary block 5,000,000 is still
era 0 with the full reward 7. -/
theorem ecip1017_eras_block_reward_spec_witness :
    ecip1017_eras_block_reward 5000000 7 5000001 = some (1, 5) ∧
    ecip1017_eras_block_reward 5000000 7 5000000 = some (0, 7) :=
  ⟨((ecip1017_eras_block_reward_spec 5000000 7 5000001 (by decide)
      (by decide) (by decide)).2).trans (by decide),
   ((ecip1017_eras_block_reward_spec 5000000 7 5000000 (by decide)
      (by decide) (by decide)).2).trans (by decide)⟩

/-- Claim C7: for any decoders, `parse_seal` fails with the
invalid-seal-arity error carrying expected 2 and the actual length on every
input whose length is not 2; on a two-entry input it succeeds with the
decoded mix digest and nonce when both entries decode, and lifts the
decoder's error when an entry is malformed. -/
theorem parse_seal_spec (decH256 decH64 : List Nat → Except DecoderError Nat)
    (sealFields : List (List Nat)) :
    (sealFields.length ≠ 2 →
      parse_seal decH256 decH64 sealFields =
        .error (.Block (.InvalidSealArity
          { expected := 2, found := sealFields.length }))) ∧
    (∀ s0 s1, sealFields = [s0, s1] →
      (∀ m n, decH256 s0 = .ok m → decH64 s1 = .ok n →
        parse_seal decH256 decH64 sealFields =
          .ok { mix_hash := m, nonce := n }) ∧
      (∀ e, decH256 s0 = .error e →
        parse_seal decH256 decH64 sealFields = .error (.Decoder e)) ∧
      (∀ m e, decH256 s0 = .ok m → decH64 s1 = .error e →
        parse_seal decH256 decH64 sealFields = .error (.Decoder e))) := by
  constructor
  · intro hlen
    cases sealFields with
    | nil => rfl
    | cons a tl =>
      cases tl with
      | nil => rfl
      | cons b tl2 =>
        cases tl2 with
        | nil => exact absurd rfl hlen
        | cons c tl3 => rfl
  · rintro s0 s1 rfl
    refine ⟨?_, ?_, ?_⟩
    · intro m n hm hn
      simp [parse_seal, hm, hn]
    · intro e he
      simp [parse_seal, he]
    · intro m e hm he
      simp [parse_seal, hm, he]

/-- Witness for C7: a three-entry seal fails with arity 2-vs-3, a two-entry
seal with succeeding decoders parses, and a failing first decoder gives the
decode error. -/
theorem parse_seal_spec_witness :
    parse_seal decOk5 decOk5 [[0], [1], [2]] =
      .error (.Block (.InvalidSealArity { expected := 2, found := 3 })) ∧
    parse_seal decOk5 decOk5 [[0], [1]] =
      .ok { mix_hash := 5, nonce := 5 } ∧
    parse_seal decShort decOk5 [[0], [1]] =
      .error (.Decoder .RlpIsTooShort) :=
  ⟨(parse_seal_spec decOk5 decOk5 [[0], [1], [2]]).1 (by decide),
   ((parse_seal_spec decOk5 decOk5 [[0], [1]]).2 [0] [1] rfl).1 5 5 rfl rfl,
   ((parse_seal_spec decShort decOk5 [[0], [1]]).2 [0] [1] rfl).2.1
     .RlpIsTooShort rfl⟩

/-- Claim C9: once the seal parses, a mismatch between the externally
computed mix digest and the seal's claimed one always yields the
mismatched-seal-element error carrying (expected = returned, found =
claimed), independently of any difficulty comparison — the check is decided
first; when the digests agree the outcome is exactly the subsequent
implied-vs-claimed difficulty check. -/
theorem verify_block_unordered_mix_check
    (computeLight : Nat → Nat → Nat → Nat × Nat)
    (boundaryToDifficulty : Nat → Nat)
    (decH256 decH64 : List Nat → Except DecoderError Nat)
    (h : Header) (s : Seal)
    (hs : parse_seal decH256 decH64 h.seal_fields = .ok s) :
    ((computeLight h.number h.bare_hash s.nonce).1 ≠ s.mix_hash →
      verify_block_unordered computeLight boundaryToDifficulty decH256
          decH64 h =
        .error (.Block (.MismatchedH256SealElement
          { expected := (computeLight h.number h.bare_hash s.nonce).1,
            found := s.mix_hash }))) ∧
    ((computeLight h.number h.bare_hash s.nonce).1 = s.mix_hash →
      verify_block_unordered computeLight boundaryToDifficulty decH256
          decH64 h =
        (if boundaryToDifficulty (computeLight h.number h.bare_hash s.nonce).2 <
            h.difficulty then
          .error (.Block (.InvalidProofOfWork
            { mn := some h.difficulty, mx := none,
              found := boundaryToDifficulty
                (computeLight h.number h.bare_hash s.nonce).2 }))
        else .ok ())) := by
  constructor
  · intro hne
    unfold verify_block_unordered
    rw [hs]
    dsimp only
    rw [if_pos hne]
  · intro heq
    unfold verify_block_unordered
    rw [hs]
    dsimp only
    rw [if_neg (not_not_intro heq)]

/-- Witness for C9: with an external facility returning mix digest 9
against a seal claiming 5, the mismatched-seal-element error carries both
values — even though the difficulty check (0 < 0 fails) would succeed. -/
theorem verify_block_unordered_mix_check_witness :
    verify_block_unordered computeLightMix9 boundaryZero decOk5 decOk5
      sealedHeader =
      .error (.Block (.MismatchedH256SealElement
        { expected := 9, found := 5 })) := by
  have happ := (verify_block_unordered_mix_check computeLightMix9
    boundaryZero decOk5 decOk5 sealedHeader { mix_hash := 5, nonce := 5 }
    rfl).1 (by decide)
  exact happ

/-- Claim C10: `verify_block_family` succeeds for any supplied parent as
soon as `header.number ≠ 0` and the claimed difficulty equals the
recalculated one — no parent-hash or number-linkage condition is checked;
in particular the verdict is invariant under changing the header's parent
hash. -/
theorem verify_block_family_no_linkage (p : EthashParams) (h par : Header)
    (d : Nat) (h0 : h.number ≠ 0)
    (hc : calculate_difficulty p h par = some d)
    (hdiff : h.difficulty = d) :
    verify_block_family p h par = some (.ok ()) ∧
    (∀ x, verify_block_family p { h with parent_hash := x } par =
      verify_block_family p h par) := by
  constructor
  · unfold verify_block_family
    rw [if_neg h0, hc]
    dsimp only
    rw [if_neg (not_not_intro hdiff)]
  · intro x
    rfl

/-- Witness for C10: a parent whose number (77) and hash bear no relation
to the header (number 1, parent hash 0) — `verify_block_family` still
succeeds because the recalculated difficulty matches. -/
theorem verify_block_family_no_linkage_witness :
    verify_block_family endToEndParams endToEndHeader unlinkedParent =
      some (.ok ()) :=
  (verify_block_family_no_linkage endToEndParams endToEndHeader
    unlinkedParent 131072 (by decide) (by decide) (by decide)).1

/-- Counterexample for C8 as stated: `homestead_transition` is a transition
block number, yet when left unset it defaults to 0, not to "never"
(`u64::max_value()`). -/
theorem ethash_params_homestead_default_counterexample :
    jsonAllUnset.homestead_transition = none ∧
    (ethashParamsFromJson jsonAllUnset).homestead_transition = 0 ∧
    (ethashParamsFromJson jsonAllUnset).homestead_transition ≠ u64Max := by
  decide

/-- Claim C8 (amended): building `EthashParams` from a configuration with
every optional field unset defaults the transitions to "never"
(`u64::max_value()`) — except `homestead_transition` and
`block_reward_contract_transition`, which default to 0 — the block-reward
table to a single era at block 0 with zero reward, the bomb-delay table to
empty, the increment divisors to 10 and 9, `duration_limit` to 0, the
EXPIP-2 duration limit to 30, and the hardfork bound divisor to the plain
bound divisor. -/
theorem ethash_params_from_json_defaults (md bd : Nat) :
    ethashParamsFromJson
      { minimum_difficulty := md
        difficulty_bound_divisor := bd
        difficulty_increment_divisor := none
        metropolis_difficulty_increment_divisor := none
        duration_limit := none
        homestead_transition := none
        difficulty_hardfork_transition := none
        difficulty_hardfork_bound_divisor := none
        bomb_defuse_transition := none
        eip100b_transition := none
        ecip1010_pause_transition := none
        ecip1010_continue_transition := none
        ecip1017_era_rounds := none
        block_reward := none
        expip2_transition := none
        expip2_duration_limit := none
        block_reward_contract_transition := none
        difficulty_bomb_delays := none } =
      { minimum_difficulty := md
        difficulty_bound_divisor := bd
        difficulty_increment_divisor := 10
        metropolis_difficulty_increment_divisor := 9
        duration_limit := 0
        homestead_transition := 0
        difficulty_hardfork_transition := u64Max
        difficulty_hardfork_bound_divisor := bd
        bomb_defuse_transition := u64Max
        eip100b_transition := u64Max
        ecip1010_pause_transition := u64Max
        ecip1010_continue_transition := u64Max
        ecip1017_era_rounds := u64Max
        block_reward := [(0, 0)]
        expip2_transition := u64Max
        expip2_duration_limit := 30
        block_reward_contract_transition := 0
        difficulty_bomb_delays := [] } := rfl

/-- Witness for C1: the spec's end-to-end scenario, where the clamp is what
produces the result 131072. -/
theorem calculate_difficulty_ge_minimum_witness :
    calculate_difficulty endToEndParams endToEndHeader endToEndParent =
      some 131072 ∧
    endToEndParams.minimum_difficulty ≤ 131072 :=
  ⟨by decide,
   calculate_difficulty_ge_minimum endToEndParams endToEndHeader
     endToEndParent 131072 (by decide)⟩
